import Mathlib

/-!
Shallow embedding of the interview-coach action layer
(src/src/actions/index.ts) and its three-table schema.

The database binding is modelled as explicit list-valued tables inside a
`DB` state; every action is a pure function from its input, a request
context, the current time (each `new Date()` of one handler observes the
same instant), and the pre-state to a pair of an `Except` result and the
post-state.  SQL `select ... where ... limit 1` followed by the `[x]`
array destructuring becomes `List.find?`; `update ... returning` maps the
patch over the matching rows and returns the head of the patched matches;
`delete ... returning` partitions by the predicate.  JavaScript truthiness
of optional string inputs (`if (input.id)`, `input?.sessionId && ...`) is
modelled by `truthy`, which is false on both `none` and the empty string.
`crypto.randomUUID()` is modelled by an explicit `freshId` argument.
The insert paths of `saveQuestion` and `saveResponse` supply no `id`
column (faithful to the source, whose `baseValues` omit `id`), so the
`id` columns of questions and responses are `Option String`, `none`
standing for SQL NULL.
-/

namespace InterviewCoach

/-- ActionError codes used by the layer: UNAUTHORIZED and NOT_FOUND. -/
inductive ErrCode where
  | unauthorized
  | notFound
deriving DecidableEq, Repr

/-- An ActionError: a code together with a human-readable message. -/
structure ActionErr where
  code : ErrCode
  message : String
deriving DecidableEq, Repr

/-- The authenticated user record; only `id` is consumed by the actions. -/
structure User where
  id : String
deriving DecidableEq, Repr

/-- The request context: `context.locals.user` is an optional user. -/
structure Ctx where
  user : Option User
deriving DecidableEq, Repr

/-- Row of the InterviewSessions table.  Timestamps are abstract `Nat`. -/
structure Session where
  id : String
  userId : String
  title : String
  jobTitle : Option String
  companyName : Option String
  mode : Option String
  scheduledAt : Option Nat
  durationMinutes : Option Nat
  createdAt : Nat
  updatedAt : Nat
deriving DecidableEq, Repr

/-- Row of the InterviewQuestions table.  The `id` column is nullable in
the model because the insert path of `saveQuestion` supplies no id. -/
structure Question where
  id : Option String
  sessionId : String
  orderIndex : Nat
  question : String
  idealAnswer : Option String
  createdAt : Nat
deriving DecidableEq, Repr

/-- Row of the InterviewResponses table; `id` nullable as for questions. -/
structure Response where
  id : Option String
  sessionId : String
  questionId : String
  answer : String
  score : Option Int
  feedback : Option String
  createdAt : Nat
deriving DecidableEq, Repr

/-- The whole database state: the three tables in storage order. -/
structure DB where
  sessions : List Session
  questions : List Question
  responses : List Response
deriving DecidableEq, Repr

/-- JavaScript truthiness of an optional string: `undefined` and `""` are
falsy, every other string is truthy. -/
def truthy : Option String → Bool
  | none => false
  | some s => !(s == "")

/-- The UNAUTHORIZED error thrown by `requireUser`. -/
def unauthorizedErr : ActionErr :=
  ⟨.unauthorized, "You must be signed in to perform this action."⟩

/-- The NOT_FOUND error with message "Session not found.". -/
def sessionNotFoundErr : ActionErr := ⟨.notFound, "Session not found."⟩

/-- The NOT_FOUND error with message "Question not found.". -/
def questionNotFoundErr : ActionErr := ⟨.notFound, "Question not found."⟩

/-- The NOT_FOUND error with message "Response not found.". -/
def responseNotFoundErr : ActionErr := ⟨.notFound, "Response not found."⟩

/-- Predicate of the recurring `and(eq(id, ...), eq(userId, ...))` where
clause on the sessions table. -/
def sessionMatches (id userId : String) (s : Session) : Bool :=
  s.id == id && s.userId == userId

/-- Input of createSession after zod validation. -/
structure CreateSessionInput where
  id : Option String
  title : String
  jobTitle : Option String
  companyName : Option String
  mode : Option String
  scheduledAt : Option Nat
  durationMinutes : Option Nat
deriving DecidableEq, Repr

/-- Input of updateSession after zod validation; `none` marks a field not
provided (or provided as `undefined`, which the patch loop skips). -/
structure UpdateSessionInput where
  id : String
  title : Option String
  jobTitle : Option String
  companyName : Option String
  mode : Option String
  scheduledAt : Option Nat
  durationMinutes : Option Nat
deriving DecidableEq, Repr

/-- Input of deleteSession. -/
structure DeleteSessionInput where
  id : String
deriving DecidableEq, Repr

/-- Input of saveQuestion after zod validation. -/
structure SaveQuestionInput where
  id : Option String
  sessionId : String
  orderIndex : Nat
  question : String
  idealAnswer : Option String
deriving DecidableEq, Repr

/-- Input of deleteQuestion. -/
structure DeleteQuestionInput where
  id : String
  sessionId : String
deriving DecidableEq, Repr

/-- Input of saveResponse after zod validation. -/
structure SaveResponseInput where
  id : Option String
  sessionId : String
  questionId : String
  answer : String
  score : Option Int
  feedback : Option String
deriving DecidableEq, Repr

/-- Input of listResponses; an absent input object is both fields `none`. -/
structure ListResponsesInput where
  sessionId : Option String
  questionId : Option String
deriving DecidableEq, Repr

/-- `requireUser`: returns the user from the context or the UNAUTHORIZED
error when no user is present. -/
def requireUser (ctx : Ctx) : Except ActionErr User :=
  match ctx.user with
  | none => .error unauthorizedErr
  | some u => .ok u

/-- createSession handler.  `input.id ?? crypto.randomUUID()` becomes
`input.id.getD freshId`; both `new Date()` calls observe `now`.  The
insert appends the row and `.returning()` yields it. -/
def createSession (input : CreateSessionInput) (ctx : Ctx) (now : Nat)
    (freshId : String) (db : DB) : Except ActionErr (Option Session) × DB :=
  match ctx.user with
  | none => (.error unauthorizedErr, db)
  | some user =>
    let row : Session :=
      { id := input.id.getD freshId
        userId := user.id
        title := input.title
        jobTitle := input.jobTitle
        companyName := input.companyName
        mode := input.mode
        scheduledAt := input.scheduledAt
        durationMinutes := input.durationMinutes
        createdAt := now
        updatedAt := now }
    (.ok (some row), { db with sessions := db.sessions ++ [row] })

/-- The handler's sparse patch is empty exactly when every mutable field
of the input is absent (the loop keeps only defined entries of `rest`). -/
def patchEmpty (input : UpdateSessionInput) : Bool :=
  input.title.isNone && input.jobTitle.isNone && input.companyName.isNone &&
  input.mode.isNone && input.scheduledAt.isNone && input.durationMinutes.isNone

/-- A provided optional-column patch value overrides the stored one;
an absent one keeps it (spread of `updateData` over the row). -/
def orElseKeep : Option α → Option α → Option α
  | some v, _ => some v
  | none, old => old

/-- Effect of `db.update(InterviewSessions).set({...updateData,
updatedAt: new Date()})` on one row. -/
def patchSession (input : UpdateSessionInput) (now : Nat) (s : Session) :
    Session :=
  { s with
    title := input.title.getD s.title
    jobTitle := orElseKeep input.jobTitle s.jobTitle
    companyName := orElseKeep input.companyName s.companyName
    mode := orElseKeep input.mode s.mode
    scheduledAt := orElseKeep input.scheduledAt s.scheduledAt
    durationMinutes := orElseKeep input.durationMinutes s.durationMinutes
    updatedAt := now }

/-- updateSession handler: ownership-scoped lookup, NOT_FOUND when absent,
early return of the existing row on an empty patch, otherwise an update
scoped by the same where clause returning the first patched row. -/
def updateSession (input : UpdateSessionInput) (ctx : Ctx) (now : Nat)
    (db : DB) : Except ActionErr (Option Session) × DB :=
  match ctx.user with
  | none => (.error unauthorizedErr, db)
  | some user =>
    match db.sessions.find? (sessionMatches input.id user.id) with
    | none => (.error sessionNotFoundErr, db)
    | some existing =>
      if patchEmpty input then
        (.ok (some existing), db)
      else
        let p := sessionMatches input.id user.id
        let updated :=
          db.sessions.map (fun s => if p s then patchSession input now s else s)
        let returned := ((db.sessions.filter p).map (patchSession input now)).head?
        (.ok returned, { db with sessions := updated })

/-- listSessions handler: all sessions whose userId is the caller's. -/
def listSessions (ctx : Ctx) (db : DB) :
    Except ActionErr (List Session) × DB :=
  match ctx.user with
  | none => (.error unauthorizedErr, db)
  | some user =>
    (.ok (db.sessions.filter (fun s => s.userId == user.id)), db)

/-- deleteSession handler: delete scoped to (id, ownerId); NOT_FOUND when
nothing was deleted, otherwise the deleted row is returned. -/
def deleteSession (input : DeleteSessionInput) (ctx : Ctx) (db : DB) :
    Except ActionErr Session × DB :=
  match ctx.user with
  | none => (.error unauthorizedErr, db)
  | some user =>
    let p := sessionMatches input.id user.id
    let remaining := db.sessions.filter (fun s => !(p s))
    match (db.sessions.filter p).head? with
    | none => (.error sessionNotFoundErr, { db with sessions := remaining })
    | some d => (.ok d, { db with sessions := remaining })

/-- The `baseValues` of saveQuestion without the id column (the source's
object literal has no `id` key): effect of the update `.set(baseValues)`
on one row. -/
def replaceQuestion (input : SaveQuestionInput) (now : Nat) (q : Question) :
    Question :=
  { q with
    sessionId := input.sessionId
    orderIndex := input.orderIndex
    question := input.question
    idealAnswer := input.idealAnswer
    createdAt := now }

/-- The row inserted by saveQuestion's insert path: `baseValues` carry no
id, so the id column is NULL. -/
def insertedQuestion (input : SaveQuestionInput) (now : Nat) : Question :=
  { id := none
    sessionId := input.sessionId
    orderIndex := input.orderIndex
    question := input.question
    idealAnswer := input.idealAnswer
    createdAt := now }

/-- saveQuestion handler: ownership check on sessionId, then upsert keyed
on the truthiness of `input.id`; the update path looks up the existing
question by id only and rejects a sessionId mismatch with NOT_FOUND. -/
def saveQuestion (input : SaveQuestionInput) (ctx : Ctx) (now : Nat)
    (db : DB) : Except ActionErr (Option Question) × DB :=
  match ctx.user with
  | none => (.error unauthorizedErr, db)
  | some user =>
    match db.sessions.find? (sessionMatches input.sessionId user.id) with
    | none => (.error sessionNotFoundErr, db)
    | some _session =>
      if truthy input.id then
        let qid := input.id.getD ""
        match db.questions.find? (fun q => q.id == some qid) with
        | none => (.error questionNotFoundErr, db)
        | some existing =>
          if existing.sessionId == input.sessionId then
            let p := fun (q : Question) => q.id == some qid
            let updated := db.questions.map
              (fun q => if p q then replaceQuestion input now q else q)
            let returned :=
              ((db.questions.filter p).map (replaceQuestion input now)).head?
            (.ok returned, { db with questions := updated })
          else
            (.error questionNotFoundErr, db)
      else
        let row := insertedQuestion input now
        (.ok (some row), { db with questions := db.questions ++ [row] })

/-- deleteQuestion handler: ownership check on sessionId first, then a
delete scoped to (id, sessionId); NOT_FOUND when nothing was deleted. -/
def deleteQuestion (input : DeleteQuestionInput) (ctx : Ctx) (db : DB) :
    Except ActionErr Question × DB :=
  match ctx.user with
  | none => (.error unauthorizedErr, db)
  | some user =>
    match db.sessions.find? (sessionMatches input.sessionId user.id) with
    | none => (.error sessionNotFoundErr, db)
    | some _session =>
      let p := fun (q : Question) =>
        q.id == some input.id && q.sessionId == input.sessionId
      let remaining := db.questions.filter (fun q => !(p q))
      match (db.questions.filter p).head? with
      | none => (.error questionNotFoundErr, { db with questions := remaining })
      | some d => (.ok d, { db with questions := remaining })

/-- The `baseValues` of saveResponse applied as the update `.set`. -/
def replaceResponse (input : SaveResponseInput) (now : Nat) (r : Response) :
    Response :=
  { r with
    sessionId := input.sessionId
    questionId := input.questionId
    answer := input.answer
    score := input.score
    feedback := input.feedback
    createdAt := now }

/-- The row inserted by saveResponse's insert path (no id column). -/
def insertedResponse (input : SaveResponseInput) (now : Nat) : Response :=
  { id := none
    sessionId := input.sessionId
    questionId := input.questionId
    answer := input.answer
    score := input.score
    feedback := input.feedback
    createdAt := now }

/-- saveResponse handler: ownership check on sessionId, then the
referenced question must exist with exactly the input's (questionId,
sessionId) pair, then upsert keyed on the truthiness of `input.id` with
the same cross-session tamper guard as saveQuestion. -/
def saveResponse (input : SaveResponseInput) (ctx : Ctx) (now : Nat)
    (db : DB) : Except ActionErr (Option Response) × DB :=
  match ctx.user with
  | none => (.error unauthorizedErr, db)
  | some user =>
    match db.sessions.find? (sessionMatches input.sessionId user.id) with
    | none => (.error sessionNotFoundErr, db)
    | some _session =>
      match db.questions.find? (fun q =>
          q.id == some input.questionId && q.sessionId == input.sessionId) with
      | none => (.error questionNotFoundErr, db)
      | some _question =>
        if truthy input.id then
          let rid := input.id.getD ""
          match db.responses.find? (fun r => r.id == some rid) with
          | none => (.error responseNotFoundErr, db)
          | some existing =>
            if existing.sessionId == input.sessionId then
              let p := fun (r : Response) => r.id == some rid
              let updated := db.responses.map
                (fun r => if p r then replaceResponse input now r else r)
              let returned :=
                ((db.responses.filter p).map (replaceResponse input now)).head?
              (.ok returned, { db with responses := updated })
            else
              (.error responseNotFoundErr, db)
        else
          let row := insertedResponse input now
          (.ok (some row), { db with responses := db.responses ++ [row] })

/-- listResponses handler: owned session ids, NOT_FOUND when a truthy
sessionId filter is outside them, then the in-memory filter over all
responses. -/
def listResponses (input : ListResponsesInput) (ctx : Ctx) (db : DB) :
    Except ActionErr (List Response) × DB :=
  match ctx.user with
  | none => (.error unauthorizedErr, db)
  | some user =>
    let owned := db.sessions.filter (fun s => s.userId == user.id)
    let allowed := owned.map Session.id
    if truthy input.sessionId && !(allowed.contains (input.sessionId.getD "")) then
      (.error sessionNotFoundErr, db)
    else
      let filtered := db.responses.filter (fun r =>
        allowed.contains r.sessionId &&
        (if truthy input.sessionId then r.sessionId == input.sessionId.getD "" else true) &&
        (if truthy input.questionId then r.questionId == input.questionId.getD "" else true))
      (.ok filtered, db)

/-! Helper lemmas shared by the claim theorems. -/

/-- The first element of a filtered list is the first element satisfying
the predicate: `select ... limit 1` agrees with `List.find?`. -/
theorem head_filter_eq_find? {α : Type} (p : α → Bool) (l : List α) :
    (l.filter p).head? = l.find? p := by
  induction l with
  | nil => rfl
  | cons a t ih =>
    by_cases h : p a
    · simp [List.filter_cons, List.find?_cons, h]
    · simp [List.filter_cons, List.find?_cons, h, ih]

/-- Unfolding of the sessions where-clause to propositional equalities. -/
theorem sessionMatches_eq_true {id userId : String} {s : Session} :
    sessionMatches id userId s = true ↔ (s.id = id ∧ s.userId = userId) := by
  simp [sessionMatches]

/-- The head of a list is a member of it. -/
theorem mem_of_head?_eq_some {α : Type} {l : List α} {a : α}
    (h : l.head? = some a) : a ∈ l := by
  cases l with
  | nil => simp at h
  | cons b t =>
    simp at h
    simp [h]

/-! Concrete fixtures used by witnesses and counterexamples. -/

/-- User A. -/
def uA : User := ⟨"A"⟩

/-- A request context authenticated as user A. -/
def ctxA : Ctx := ⟨some uA⟩

/-- A request context with no user identity. -/
def ctxNone : Ctx := ⟨none⟩

/-- A session with id S1 owned by user A. -/
def sessionA : Session :=
  ⟨"S1", "A", "Backend Interview", none, none, none, none, none, 1, 1⟩

/-- A database holding only `sessionA`. -/
def dbOneSession : DB := ⟨[sessionA], [], []⟩

/-- An updateSession input for S1 with no mutable field provided. -/
def emptyPatchInput : UpdateSessionInput :=
  ⟨"S1", none, none, none, none, none, none⟩

/-- A createSession input providing only a title. -/
def createInputW : CreateSessionInput :=
  ⟨none, "Backend Interview", none, none, none, none, none⟩

/-- A second session, also owned by user A. -/
def sessionB : Session :=
  ⟨"S2", "A", "Frontend Interview", none, none, none, none, none, 1, 1⟩

/-- A question Q1 belonging to session S1. -/
def questionQ1 : Question := ⟨some "Q1", "S1", 1, "Tell me about yourself", none, 0⟩

/-- A question Q2 belonging to session S2. -/
def questionQ2 : Question := ⟨some "Q2", "S2", 1, "Other question", none, 0⟩

/-- A response R1 belonging to session S2 and question Q2. -/
def responseR1 : Response := ⟨some "R1", "S2", "Q2", "old answer", none, none, 0⟩

/-- A database with sessions S1 and S2 (both owned by A), questions Q1
(in S1) and Q2 (in S2), and response R1 (in S2). -/
def dbTwoSessions : DB := ⟨[sessionA, sessionB], [questionQ1, questionQ2], [responseR1]⟩

/-- A saveQuestion input targeting Q2 but claiming sessionId S1. -/
def tamperQInput : SaveQuestionInput := ⟨some "Q2", "S1", 1, "Injected", none⟩

/-- A saveResponse input targeting R1 but claiming sessionId S1 with the
valid question pair (Q1, S1). -/
def tamperRInput : SaveResponseInput := ⟨some "R1", "S1", "Q1", "ans", none, none⟩

/-- A saveQuestion input updating Q1 in place with a new orderIndex and
text. -/
def saveQUpdateInput : SaveQuestionInput := ⟨some "Q1", "S1", 2, "Updated question", none⟩

/-- A saveQuestion input with no id (the insert path). -/
def saveQInsertInput : SaveQuestionInput := ⟨none, "S1", 1, "Tell me about yourself", none⟩

/-- A saveResponse input with a questionId that does not belong to the
given sessionId (Q2 lives in S2, the input claims S1). -/
def mismatchedPairInput : SaveResponseInput := ⟨none, "S1", "Q2", "ans", none, none⟩

/-! Claim theorems. -/

/-- C1: for a session row owned by the caller, updateSession with an
empty effective patch (no mutable field provided) returns that row
unchanged and performs no write: the post-state equals the pre-state, so
in particular updatedAt is unchanged. -/
theorem updateSession_empty_patch_noop
    (db : DB) (ctx : Ctx) (u : User) (input : UpdateSessionInput)
    (now : Nat) (s : Session)
    (hu : ctx.user = some u)
    (hfind : db.sessions.find? (sessionMatches input.id u.id) = some s)
    (hempty : patchEmpty input = true) :
    updateSession input ctx now db = (.ok (some s), db) := by
  simp [updateSession, hu, hfind, hempty]

/-- C1 witness: the theorem applied at a concrete one-session database. -/
theorem updateSession_empty_patch_noop_witness :
    updateSession emptyPatchInput ctxA 9 dbOneSession =
      (.ok (some sessionA), dbOneSession) :=
  updateSession_empty_patch_noop dbOneSession ctxA uA emptyPatchInput 9
    sessionA rfl (by decide) (by decide)

/-- C7: createSession with an authenticated caller appends exactly one
session row; its id is the input id when provided and the freshly
generated id otherwise, its userId is the caller's id, and createdAt and
updatedAt are both stamped to the current time; that row is returned. -/
theorem createSession_inserts_row
    (db : DB) (ctx : Ctx) (u : User) (input : CreateSessionInput)
    (now : Nat) (freshId : String)
    (hu : ctx.user = some u) :
    ∃ row : Session,
      createSession input ctx now freshId db =
        (.ok (some row), { db with sessions := db.sessions ++ [row] }) ∧
      row.id = input.id.getD freshId ∧
      (input.id = none → row.id = freshId) ∧
      (∀ i, input.id = some i → row.id = i) ∧
      row.userId = u.id ∧
      row.title = input.title ∧
      row.createdAt = now ∧
      row.updatedAt = now := by
  cases ctx with
  | mk cu =>
    cases hu
    exact ⟨_, rfl, rfl, fun h => by simp [h], fun i h => by simp [h],
      rfl, rfl, rfl, rfl⟩

/-- C7 witness: the theorem applied with no input id, so the generated
id F9 is used and createdAt = updatedAt = 4. -/
theorem createSession_inserts_row_witness :
    ∃ row : Session,
      createSession createInputW ctxA 4 "F9" dbOneSession =
        (.ok (some row),
          { dbOneSession with sessions := dbOneSession.sessions ++ [row] }) ∧
      row.id = createInputW.id.getD "F9" ∧
      (createInputW.id = none → row.id = "F9") ∧
      (∀ i, createInputW.id = some i → row.id = i) ∧
      row.userId = uA.id ∧
      row.title = createInputW.title ∧
      row.createdAt = 4 ∧
      row.updatedAt = 4 :=
  createSession_inserts_row dbOneSession ctxA uA createInputW 4 "F9" rfl

/-- C10: when the request context carries no user identity, every action
of the surface fails with the Unauthorized error and the database state
is unchanged (requireUser throws before any data access). -/
theorem actions_unauthorized_no_effect
    (db : DB) (ctx : Ctx) (hu : ctx.user = none)
    (i1 : CreateSessionInput) (i2 : UpdateSessionInput)
    (i3 : DeleteSessionInput) (i4 : SaveQuestionInput)
    (i5 : DeleteQuestionInput) (i6 : SaveResponseInput)
    (i7 : ListResponsesInput) (now : Nat) (freshId : String) :
    createSession i1 ctx now freshId db = (.error unauthorizedErr, db) ∧
    updateSession i2 ctx now db = (.error unauthorizedErr, db) ∧
    listSessions ctx db = (.error unauthorizedErr, db) ∧
    deleteSession i3 ctx db = (.error unauthorizedErr, db) ∧
    saveQuestion i4 ctx now db = (.error unauthorizedErr, db) ∧
    deleteQuestion i5 ctx db = (.error unauthorizedErr, db) ∧
    saveResponse i6 ctx now db = (.error unauthorizedErr, db) ∧
    listResponses i7 ctx db = (.error unauthorizedErr, db) := by
  refine ⟨?_, ?_, ?_, ?_, ?_, ?_, ?_, ?_⟩ <;>
    simp [createSession, updateSession, listSessions, deleteSession,
      saveQuestion, deleteQuestion, saveResponse, listResponses, hu]

/-- C10 witness: the unauthenticated context at a concrete input. -/
theorem actions_unauthorized_no_effect_witness :
    createSession createInputW ctxNone 0 "F1" dbOneSession =
      (.error unauthorizedErr, dbOneSession) :=
  (actions_unauthorized_no_effect dbOneSession ctxNone rfl createInputW
    emptyPatchInput ⟨"S1"⟩ ⟨none, "S1", 1, "Q", none⟩ ⟨"Q1", "S1"⟩
    ⟨none, "S1", "Q1", "a", none, none⟩ ⟨none, none⟩ 0 "F1").1

/-- C8: a successful updateSession (non-empty patch on an owned row)
returns the patched first matching row; the patch changes only the
fields explicitly provided plus updatedAt, keeps every absent field at
its previous value without nulling it, never changes id, userId or
createdAt, and rows not matched by (id, ownerId) are left in place. -/
theorem updateSession_frame
    (db : DB) (ctx : Ctx) (u : User) (input : UpdateSessionInput)
    (now : Nat) (s : Session)
    (hu : ctx.user = some u)
    (hfind : db.sessions.find? (sessionMatches input.id u.id) = some s)
    (hne : patchEmpty input = false) :
    (updateSession input ctx now db).1 =
      .ok (some (patchSession input now s)) ∧
    (patchSession input now s).id = s.id ∧
    (patchSession input now s).userId = s.userId ∧
    (patchSession input now s).createdAt = s.createdAt ∧
    (patchSession input now s).updatedAt = now ∧
    (input.title = none → (patchSession input now s).title = s.title) ∧
    (∀ v, input.title = some v → (patchSession input now s).title = v) ∧
    (input.jobTitle = none →
      (patchSession input now s).jobTitle = s.jobTitle) ∧
    (∀ v, input.jobTitle = some v →
      (patchSession input now s).jobTitle = some v) ∧
    (input.companyName = none →
      (patchSession input now s).companyName = s.companyName) ∧
    (∀ v, input.companyName = some v →
      (patchSession input now s).companyName = some v) ∧
    (input.mode = none → (patchSession input now s).mode = s.mode) ∧
    (∀ v, input.mode = some v → (patchSession input now s).mode = some v) ∧
    (input.scheduledAt = none →
      (patchSession input now s).scheduledAt = s.scheduledAt) ∧
    (∀ v, input.scheduledAt = some v →
      (patchSession input now s).scheduledAt = some v) ∧
    (input.durationMinutes = none →
      (patchSession input now s).durationMinutes = s.durationMinutes) ∧
    (∀ v, input.durationMinutes = some v →
      (patchSession input now s).durationMinutes = some v) ∧
    (∀ r ∈ db.sessions, sessionMatches input.id u.id r = false →
      r ∈ (updateSession input ctx now db).2.sessions) := by
  have hmain : updateSession input ctx now db =
      (.ok (some (patchSession input now s)),
       { db with sessions := db.sessions.map (fun r =>
           if sessionMatches input.id u.id r then patchSession input now r
           else r) }) := by
    simp [updateSession, hu, hfind, hne, List.head?_map, head_filter_eq_find?]
  refine ⟨by rw [hmain], rfl, rfl, rfl, rfl,
    fun h => by simp [patchSession, h],
    fun v h => by simp [patchSession, h],
    fun h => by simp [patchSession, orElseKeep, h],
    fun v h => by simp [patchSession, orElseKeep, h],
    fun h => by simp [patchSession, orElseKeep, h],
    fun v h => by simp [patchSession, orElseKeep, h],
    fun h => by simp [patchSession, orElseKeep, h],
    fun v h => by simp [patchSession, orElseKeep, h],
    fun h => by simp [patchSession, orElseKeep, h],
    fun v h => by simp [patchSession, orElseKeep, h],
    fun h => by simp [patchSession, orElseKeep, h],
    fun v h => by simp [patchSession, orElseKeep, h],
    ?_⟩
  intro r hr hp
  rw [hmain]
  have hm := List.mem_map_of_mem
    (fun r => if sessionMatches input.id u.id r then patchSession input now r
     else r) hr
  simpa [hp] using hm

/-- C8 witness: updating only the title of S1 as user A. -/
theorem updateSession_frame_witness :
    (updateSession ⟨"S1", some "Updated", none, none, none, none, none⟩
        ctxA 9 dbOneSession).1 =
      .ok (some (patchSession
        ⟨"S1", some "Updated", none, none, none, none, none⟩ 9 sessionA)) :=
  (updateSession_frame dbOneSession ctxA uA
    ⟨"S1", some "Updated", none, none, none, none, none⟩ 9 sessionA
    rfl (by decide) (by decide)).1

/-- C9: the update path of saveQuestion (id provided and truthy, owned
session, matching stored sessionId) full-replaces question, idealAnswer
and orderIndex with the input values, refreshes createdAt to the current
time, and leaves sessionId equal to the input sessionId (the id column
itself is untouched). -/
theorem saveQuestion_update_replaces
    (db : DB) (ctx : Ctx) (u : User) (input : SaveQuestionInput)
    (now : Nat) (qid : String) (q : Question) (s : Session)
    (hu : ctx.user = some u)
    (hsess : db.sessions.find? (sessionMatches input.sessionId u.id) = some s)
    (hid : input.id = some qid) (hqid : (qid == "") = false)
    (hfind : db.questions.find? (fun x => x.id == some qid) = some q)
    (hsame : q.sessionId = input.sessionId) :
    (saveQuestion input ctx now db).1 =
      .ok (some (replaceQuestion input now q)) ∧
    (replaceQuestion input now q).question = input.question ∧
    (replaceQuestion input now q).idealAnswer = input.idealAnswer ∧
    (replaceQuestion input now q).orderIndex = input.orderIndex ∧
    (replaceQuestion input now q).createdAt = now ∧
    (replaceQuestion input now q).sessionId = input.sessionId ∧
    (replaceQuestion input now q).id = q.id := by
  have h1 : (saveQuestion input ctx now db).1 =
      .ok (some (replaceQuestion input now q)) := by
    simp [saveQuestion, hu, hsess, hid, truthy, hqid, hfind, hsame,
      List.head?_map, head_filter_eq_find?]
  exact ⟨h1, rfl, rfl, rfl, rfl, rfl, rfl⟩

/-- C9 witness: re-saving Q1 in S1 with orderIndex 2 and new text. -/
theorem saveQuestion_update_replaces_witness :
    (saveQuestion saveQUpdateInput ctxA 7 dbTwoSessions).1 =
      .ok (some (replaceQuestion saveQUpdateInput 7 questionQ1)) :=
  (saveQuestion_update_replaces dbTwoSessions ctxA uA saveQUpdateInput 7
    "Q1" questionQ1 sessionA rfl (by decide) rfl (by decide) (by decide)
    (by decide)).1

/-- C5 (evaluating the failing input): saveQuestion with no id on an
owned session inserts the row but supplies no id column at all, so the
returned question's id is NULL rather than a fresh non-empty id;
createdAt is set. -/
theorem saveQuestion_insert_has_no_id :
    (saveQuestion saveQInsertInput ctxA 7 dbOneSession) =
      (.ok (some (insertedQuestion saveQInsertInput 7)),
       ⟨[sessionA], [insertedQuestion saveQInsertInput 7], []⟩) ∧
    (insertedQuestion saveQInsertInput 7).id = none ∧
    (insertedQuestion saveQInsertInput 7).createdAt = 7 := by
  exact ⟨rfl, rfl, rfl⟩

/-- C2: for an existing question (respectively response) row whose id is
provided in the input but whose stored sessionId differs from the input
sessionId, saveQuestion (respectively saveResponse) yields NOT_FOUND and
leaves the database unchanged, even though the input sessionId resolves
to a session owned by the caller and the row with that id exists (and,
for saveResponse, the (questionId, sessionId) pair is valid). -/
theorem save_tamper_guard_not_found
    (db : DB) (ctx : Ctx) (u : User)
    (inQ : SaveQuestionInput) (inR : SaveResponseInput) (now : Nat)
    (qid rid : String) (q : Question) (r : Response)
    (sq sr : Session) (qr : Question)
    (hu : ctx.user = some u)
    (hq1 : inQ.id = some qid) (hq2 : (qid == "") = false)
    (hqsess : db.sessions.find? (sessionMatches inQ.sessionId u.id) = some sq)
    (hqfind : db.questions.find? (fun x => x.id == some qid) = some q)
    (hqdiff : (q.sessionId == inQ.sessionId) = false)
    (hr1 : inR.id = some rid) (hr2 : (rid == "") = false)
    (hrsess : db.sessions.find? (sessionMatches inR.sessionId u.id) = some sr)
    (hrq : db.questions.find? (fun x =>
      x.id == some inR.questionId && x.sessionId == inR.sessionId) = some qr)
    (hrfind : db.responses.find? (fun x => x.id == some rid) = some r)
    (hrdiff : (r.sessionId == inR.sessionId) = false) :
    saveQuestion inQ ctx now db = (.error questionNotFoundErr, db) ∧
    saveResponse inR ctx now db = (.error responseNotFoundErr, db) := by
  constructor
  · simp [saveQuestion, hu, hqsess, hq1, truthy, hq2, hqfind, hqdiff]
  · simp [saveResponse, hu, hrsess, hrq, hr1, truthy, hr2, hrfind, hrdiff]

/-- C2 witness: updating Q2 (stored in S2) while claiming S1, and R1
(stored in S2) while claiming S1, both as user A who owns S1 and S2. -/
theorem save_tamper_guard_not_found_witness :
    saveQuestion tamperQInput ctxA 5 dbTwoSessions =
      (.error questionNotFoundErr, dbTwoSessions) ∧
    saveResponse tamperRInput ctxA 5 dbTwoSessions =
      (.error responseNotFoundErr, dbTwoSessions) :=
  save_tamper_guard_not_found dbTwoSessions ctxA uA tamperQInput
    tamperRInput 5 "Q2" "R1" questionQ2 responseR1 sessionA sessionA
    questionQ1 rfl rfl (by decide) (by decide) (by decide) (by decide)
    rfl (by decide) (by decide) (by decide) (by decide) (by decide)

/-- C3: saveResponse on an owned session yields NOT_FOUND and inserts or
updates nothing when no question row carries exactly the input's
(questionId, sessionId) pair; in particular a questionId from a
different session than the given sessionId is rejected. -/
theorem saveResponse_requires_question_pair
    (db : DB) (ctx : Ctx) (u : User) (input : SaveResponseInput)
    (now : Nat) (s : Session)
    (hu : ctx.user = some u)
    (hsess : db.sessions.find? (sessionMatches input.sessionId u.id) = some s)
    (hnoq : ∀ q ∈ db.questions,
      ¬(q.id = some input.questionId ∧ q.sessionId = input.sessionId)) :
    saveResponse input ctx now db = (.error questionNotFoundErr, db) := by
  have hfind : db.questions.find? (fun q =>
      q.id == some input.questionId && q.sessionId == input.sessionId) = none := by
    rw [List.find?_eq_none]
    intro q hq
    simpa using hnoq q hq
  simp [saveResponse, hu, hsess, hfind]

/-- C3 witness: Q2 belongs to S2, the input claims the pair (Q2, S1). -/
theorem saveResponse_requires_question_pair_witness :
    saveResponse mismatchedPairInput ctxA 5 dbTwoSessions =
      (.error questionNotFoundErr, dbTwoSessions) :=
  saveResponse_requires_question_pair dbTwoSessions ctxA uA
    mismatchedPairInput 5 sessionA rfl (by decide) (by decide)

/-- Membership in the owned-session id set, spec-side formulation: the
contains test on the mapped filtered list holds exactly when some stored
session is owned by the user and carries the id. -/
theorem contains_owned_ids_iff (db : DB) (uid v : String) :
    (((db.sessions.filter (fun s => s.userId == uid)).map Session.id).contains v
      = true) ↔ ∃ s ∈ db.sessions, s.userId = uid ∧ s.id = v := by
  simp only [List.contains, List.elem_iff, List.mem_map, List.mem_filter,
    beq_iff_eq]
  constructor
  · rintro ⟨s, ⟨hs, huid⟩, hid⟩
    exact ⟨s, hs, huid, hid⟩
  · rintro ⟨s, hs, huid, hid⟩
    exact ⟨s, ⟨hs, huid⟩, hid⟩

/-- A truthiness-guarded equality filter holds exactly on values that
match every provided non-empty filter value. -/
theorem truthy_filter_iff (o : Option String) (v : String) :
    ((if truthy o then v == o.getD "" else true) = true) ↔
      (∀ x, o = some x → x ≠ "" → v = x) := by
  rcases o with _ | x
  · simp [truthy]
  · by_cases hx : x = ""
    · subst hx
      simp [truthy]
    · simp [truthy, hx]

/-- C6: with an authenticated caller, deleteSession and deleteQuestion
fail only with NOT_FOUND: a target with no (id, ownerId) match (for
questions: an unowned sessionId, or no (id, sessionId) match under an
owned session) yields the NOT_FOUND error with the database unchanged,
and on success the returned row is the stored matching row and exactly
the matching rows are removed. -/
theorem delete_actions_scoped
    (db : DB) (ctx : Ctx) (u : User)
    (inS : DeleteSessionInput) (inQ : DeleteQuestionInput)
    (hu : ctx.user = some u) :
    ((∀ s ∈ db.sessions, ¬(s.id = inS.id ∧ s.userId = u.id)) →
      deleteSession inS ctx db = (.error sessionNotFoundErr, db)) ∧
    (∀ e, (deleteSession inS ctx db).1 = .error e → e.code = .notFound) ∧
    (∀ s, (deleteSession inS ctx db).1 = .ok s →
      s ∈ db.sessions ∧ s.id = inS.id ∧ s.userId = u.id ∧
      (deleteSession inS ctx db).2.sessions =
        db.sessions.filter (fun r => !(sessionMatches inS.id u.id r))) ∧
    ((∃ s ∈ db.sessions, s.id = inS.id ∧ s.userId = u.id) →
      ∃ s, (deleteSession inS ctx db).1 = .ok s) ∧
    ((∀ s ∈ db.sessions, ¬(s.id = inQ.sessionId ∧ s.userId = u.id)) →
      deleteQuestion inQ ctx db = (.error sessionNotFoundErr, db)) ∧
    ((∃ s ∈ db.sessions, s.id = inQ.sessionId ∧ s.userId = u.id) →
      (∀ q ∈ db.questions,
        ¬(q.id = some inQ.id ∧ q.sessionId = inQ.sessionId)) →
      deleteQuestion inQ ctx db = (.error questionNotFoundErr, db)) ∧
    (∀ e, (deleteQuestion inQ ctx db).1 = .error e → e.code = .notFound) ∧
    (∀ q, (deleteQuestion inQ ctx db).1 = .ok q →
      q ∈ db.questions ∧ q.id = some inQ.id ∧ q.sessionId = inQ.sessionId ∧
      (deleteQuestion inQ ctx db).2.questions =
        db.questions.filter (fun r =>
          !(r.id == some inQ.id && r.sessionId == inQ.sessionId))) ∧
    ((∃ s ∈ db.sessions, s.id = inQ.sessionId ∧ s.userId = u.id) →
      (∃ q ∈ db.questions, q.id = some inQ.id ∧ q.sessionId = inQ.sessionId) →
      ∃ q, (deleteQuestion inQ ctx db).1 = .ok q) := by
  refine ⟨?_, ?_, ?_, ?_, ?_, ?_, ?_, ?_, ?_⟩
  · intro hnone
    have hp : ∀ s ∈ db.sessions, sessionMatches inS.id u.id s = false := by
      intro s hs
      cases hcase : sessionMatches inS.id u.id s
      · rfl
      · exact absurd (sessionMatches_eq_true.mp hcase) (hnone s hs)
    have hfil : db.sessions.filter (sessionMatches inS.id u.id) = [] :=
      List.filter_eq_nil_iff.mpr (fun s hs => by simp [hp s hs])
    have hrem : db.sessions.filter (fun s => !(sessionMatches inS.id u.id s))
        = db.sessions :=
      List.filter_eq_self.mpr (fun s hs => by simp [hp s hs])
    simp [deleteSession, hu, hfil, hrem]
  · intro e he
    rcases hh : (db.sessions.filter (sessionMatches inS.id u.id)).head?
      with _ | d
    · simp [deleteSession, hu, hh] at he
      subst he
      rfl
    · simp [deleteSession, hu, hh] at he
  · intro s hs
    rcases hh : (db.sessions.filter (sessionMatches inS.id u.id)).head?
      with _ | d
    · simp [deleteSession, hu, hh] at hs
    · simp [deleteSession, hu, hh] at hs
      subst hs
      have hd := mem_of_head?_eq_some hh
      rw [List.mem_filter] at hd
      refine ⟨hd.1, (sessionMatches_eq_true.mp hd.2).1,
        (sessionMatches_eq_true.mp hd.2).2, ?_⟩
      simp [deleteSession, hu, hh]
  · intro hsome
    obtain ⟨s0, hs0, h1, h2⟩ := hsome
    have hmem : s0 ∈ db.sessions.filter (sessionMatches inS.id u.id) :=
      List.mem_filter.mpr ⟨hs0, sessionMatches_eq_true.mpr ⟨h1, h2⟩⟩
    cases hfl : db.sessions.filter (sessionMatches inS.id u.id) with
    | nil =>
      rw [hfl] at hmem
      simp at hmem
    | cons d t =>
      exact ⟨d, by simp [deleteSession, hu, hfl]⟩
  · intro hnone
    have hfind : db.sessions.find? (sessionMatches inQ.sessionId u.id)
        = none := by
      rw [List.find?_eq_none]
      intro s hs h
      exact hnone s hs (sessionMatches_eq_true.mp h)
    simp [deleteQuestion, hu, hfind]
  · intro hsome hnoq
    have hissome : (db.sessions.find? (sessionMatches inQ.sessionId u.id)).isSome := by
      rw [List.find?_isSome]
      obtain ⟨s0, hs0, h1, h2⟩ := hsome
      exact ⟨s0, hs0, sessionMatches_eq_true.mpr ⟨h1, h2⟩⟩
    rcases hf : db.sessions.find? (sessionMatches inQ.sessionId u.id)
      with _ | s0
    · rw [hf] at hissome
      simp at hissome
    · have hqfalse : ∀ q ∈ db.questions,
          (q.id == some inQ.id && q.sessionId == inQ.sessionId) = false := by
        intro q hq
        cases hcase : (q.id == some inQ.id && q.sessionId == inQ.sessionId)
        · rfl
        · exact absurd (by simpa using hcase) (hnoq q hq)
      have hfil : db.questions.filter (fun q =>
          q.id == some inQ.id && q.sessionId == inQ.sessionId) = [] :=
        List.filter_eq_nil_iff.mpr (fun q hq => by simp [hqfalse q hq])
      have hrem : db.questions.filter (fun q =>
          !(q.id == some inQ.id && q.sessionId == inQ.sessionId))
          = db.questions :=
        List.filter_eq_self.mpr (fun q hq => by simp [hqfalse q hq])
      have hrem2 : db.questions.filter (fun q =>
          (!(q.id == some inQ.id) || !(q.sessionId == inQ.sessionId)))
          = db.questions := by
        apply List.filter_eq_self.mpr
        intro q hq
        have h := hqfalse q hq
        cases hA : (q.id == some inQ.id) <;>
          cases hB : (q.sessionId == inQ.sessionId) <;> simp_all
      simp [deleteQuestion, hu, hf, hfil, hrem]
      rw [hrem2]
  · intro e he
    rcases hf : db.sessions.find? (sessionMatches inQ.sessionId u.id)
      with _ | s0
    · simp [deleteQuestion, hu, hf] at he
      subst he
      rfl
    · rcases hh : (db.questions.filter (fun q =>
          q.id == some inQ.id && q.sessionId == inQ.sessionId)).head?
        with _ | d
      · simp [deleteQuestion, hu, hf, hh] at he
        subst he
        rfl
      · simp [deleteQuestion, hu, hf, hh] at he
  · intro q hq
    rcases hf : db.sessions.find? (sessionMatches inQ.sessionId u.id)
      with _ | s0
    · simp [deleteQuestion, hu, hf] at hq
    · rcases hh : (db.questions.filter (fun x =>
          x.id == some inQ.id && x.sessionId == inQ.sessionId)).head?
        with _ | d
      · simp [deleteQuestion, hu, hf, hh] at hq
      · simp [deleteQuestion, hu, hf, hh] at hq
        subst hq
        have hd := mem_of_head?_eq_some hh
        rw [List.mem_filter] at hd
        have hb : d.id = some inQ.id ∧ d.sessionId = inQ.sessionId := by
          simpa using hd.2
        exact ⟨hd.1, hb.1, hb.2, by simp [deleteQuestion, hu, hf, hh]⟩
  · intro hsome hqsome
    have hissome : (db.sessions.find? (sessionMatches inQ.sessionId u.id)).isSome := by
      rw [List.find?_isSome]
      obtain ⟨s0, hs0, h1, h2⟩ := hsome
      exact ⟨s0, hs0, sessionMatches_eq_true.mpr ⟨h1, h2⟩⟩
    rcases hf : db.sessions.find? (sessionMatches inQ.sessionId u.id)
      with _ | s0
    · rw [hf] at hissome
      simp at hissome
    · obtain ⟨q0, hq0, hq1, hq2⟩ := hqsome
      have hmem : q0 ∈ db.questions.filter (fun x =>
          x.id == some inQ.id && x.sessionId == inQ.sessionId) :=
        List.mem_filter.mpr ⟨hq0, by simp [hq1, hq2]⟩
      cases hfl : db.questions.filter (fun x =>
          x.id == some inQ.id && x.sessionId == inQ.sessionId) with
      | nil =>
        rw [hfl] at hmem
        simp at hmem
      | cons d t =>
        exact ⟨d, by simp [deleteQuestion, hu, hf, hfl]⟩

/-- C6 witness: deleting the non-existent session S9 yields NOT_FOUND,
and deleting the owned session S1 and the question Q1 under S1 both
succeed, all as user A. -/
theorem delete_actions_scoped_witness :
    (deleteSession ⟨"S9"⟩ ctxA dbOneSession =
      (.error sessionNotFoundErr, dbOneSession)) ∧
    (∃ s, (deleteSession ⟨"S1"⟩ ctxA dbTwoSessions).1 = .ok s) ∧
    (∃ q, (deleteQuestion ⟨"Q1", "S1"⟩ ctxA dbTwoSessions).1 = .ok q) :=
  ⟨(delete_actions_scoped dbOneSession ctxA uA ⟨"S9"⟩ ⟨"Q9", "S9"⟩ rfl).1
      (by decide),
   (delete_actions_scoped dbTwoSessions ctxA uA ⟨"S1"⟩ ⟨"Q1", "S1"⟩
      rfl).2.2.2.1 (by decide),
   (delete_actions_scoped dbTwoSessions ctxA uA ⟨"S1"⟩ ⟨"Q1", "S1"⟩
      rfl).2.2.2.2.2.2.2.2 (by decide) (by decide)⟩

/-- Reduction of listResponses for an authenticated context: the guard
and the in-memory filter, with the owned-id set written out. -/
theorem listResponses_some (input : ListResponsesInput) (u : User) (db : DB) :
    listResponses input ⟨some u⟩ db =
      (if truthy input.sessionId &&
          !(((db.sessions.filter (fun s => s.userId == u.id)).map
            Session.id).contains (input.sessionId.getD "")) then
        (.error sessionNotFoundErr, db)
      else
        (.ok (db.responses.filter (fun r =>
          ((db.sessions.filter (fun s => s.userId == u.id)).map
            Session.id).contains r.sessionId &&
          (if truthy input.sessionId then
            r.sessionId == input.sessionId.getD "" else true) &&
          (if truthy input.questionId then
            r.questionId == input.questionId.getD "" else true))),
         db)) := rfl

/-- C4 counterexample: invoking listResponses with the provided filter
sessionId = "" on a state holding response R1 in owned session S2
returns R1, whose sessionId S2 does not match the provided filter: the
empty-string filter is ignored by the code (JavaScript truthiness), so
the returned set is not the set of rows matching each provided filter. -/
theorem listResponses_empty_filter_counterexample :
    (listResponses ⟨some "", none⟩ ctxA dbTwoSessions).1 =
      .ok [responseR1] ∧
    responseR1.sessionId ≠ "" := by
  exact ⟨rfl, by decide⟩

/-- C4 (amended): listResponses performs no write, and any returned set
contains exactly the responses that belong to a session owned by the
caller and match each provided NON-EMPTY filter (an empty-string filter
is treated as absent); in particular no returned row belongs to a
session not owned by the caller. -/
theorem listResponses_exactly_owned_filtered
    (db : DB) (ctx : Ctx) (u : User) (input : ListResponsesInput)
    (rs : List Response)
    (hu : ctx.user = some u)
    (hok : (listResponses input ctx db).1 = .ok rs) :
    (listResponses input ctx db).2 = db ∧
    ∀ r : Response, r ∈ rs ↔
      (r ∈ db.responses ∧
       (∃ s ∈ db.sessions, s.userId = u.id ∧ s.id = r.sessionId) ∧
       (∀ sid, input.sessionId = some sid → sid ≠ "" → r.sessionId = sid) ∧
       (∀ qid, input.questionId = some qid → qid ≠ "" → r.questionId = qid)) := by
  obtain ⟨cu⟩ := ctx
  replace hu : cu = some u := hu
  subst hu
  rw [listResponses_some] at hok
  split at hok
  · simp at hok
  · next hgb =>
    have hrs := Except.ok.inj hok
    subst hrs
    refine ⟨by rw [listResponses_some, if_neg hgb], ?_⟩
    intro r
    rw [List.mem_filter]
    constructor
    · rintro ⟨hmem, hb⟩
      rw [Bool.and_eq_true, Bool.and_eq_true] at hb
      obtain ⟨⟨hc, hs⟩, hq⟩ := hb
      exact ⟨hmem, (contains_owned_ids_iff db u.id r.sessionId).mp hc,
        (truthy_filter_iff input.sessionId r.sessionId).mp hs,
        (truthy_filter_iff input.questionId r.questionId).mp hq⟩
    · rintro ⟨hmem, hc, hs, hq⟩
      refine ⟨hmem, ?_⟩
      rw [Bool.and_eq_true, Bool.and_eq_true]
      exact ⟨⟨(contains_owned_ids_iff db u.id r.sessionId).mpr hc,
        (truthy_filter_iff input.sessionId r.sessionId).mpr hs⟩,
        (truthy_filter_iff input.questionId r.questionId).mpr hq⟩

/-- C4 witness: listing responses of owned session S2 returns R1 and
leaves the state unchanged. -/
theorem listResponses_exactly_owned_filtered_witness :
    (listResponses ⟨some "S2", none⟩ ctxA dbTwoSessions).2 =
      dbTwoSessions :=
  (listResponses_exactly_owned_filtered dbTwoSessions ctxA uA
    ⟨some "S2", none⟩ [responseR1] rfl rfl).1

end InterviewCoach
